import Mathlib

/-!
Verification of the Change-Aware Monitoring Scheduler and its control API.

The monitor core (`src/monitor.py` / `src/enhanced_monitor.py`: snapshots,
the change scorer, the extraction decision engine, the poll cycle) is not
present in the repository checkout; only its tests, demos and callers are.
Those components are therefore modelled from the specification, and each
such definition carries a doc comment starting `Modelled from the spec:`.
The control API (`src/monitor_api.py`) is present and its handlers are
embedded from the source directly.

Numeric conventions: times (timestamps, cooldown windows) and significance
scores are rationals; Python integers are `Int`.
-/

namespace ADOMonitor

/-- Modelled from the spec: `RequirementSnapshot` (§3) from the missing
`src/monitor.py`. `content_hash` is the hash of `title ++ description`;
hash equality is modelled as equality of the hashed input string. -/
structure RequirementSnapshot where
  id : String
  title : String
  description : String
  state : String
  content_hash : String
deriving DecidableEq, Repr

/-- Modelled from the spec: raw fields fetched from the tracker (§4.1, §6);
missing `title`/`description`/`state` default to the empty string. -/
structure RawFields where
  id : String
  title : Option String
  description : Option String
  state : Option String
deriving DecidableEq, Repr

/-- Modelled from the spec: the content fingerprint (§3). The hash input is
the concatenation of title and description; the cryptographic hash itself
is modelled as the identity on that input (collision-free abstraction). -/
def contentHash (title description : String) : String :=
  title ++ description

/-- Modelled from the spec: `snapshot(rawFields)` (§4.1) from the missing
`src/monitor.py`. Pure; missing fields become the empty string. -/
def snapshot (raw : RawFields) : RequirementSnapshot :=
  let t := raw.title.getD ""
  let d := raw.description.getD ""
  { id := raw.id
    title := t
    description := d
    state := raw.state.getD ""
    content_hash := contentHash t d }

/-- Modelled from the spec: `MonitorConfig` (§3) of the missing
`src/monitor.py`. -/
structure MonitorConfig where
  poll_interval_seconds : Int
  auto_sync : Bool
  auto_extract_new_epics : Bool
  skip_duplicate_check : Bool
  extraction_cooldown_hours : Rat
  enable_content_hash_comparison : Bool
  enable_change_based_extraction : Bool
  change_significance_threshold : Rat
  max_changes_per_item : Nat
  retry_attempts : Nat
  retry_delay_seconds : Rat
  manual_override_enabled : Bool
deriving DecidableEq, Repr

/-- Modelled from the spec: `last_sync_result` record (§3). -/
structure SyncResult where
  success : Bool
  timestamp : Rat
  detail : String
deriving DecidableEq, Repr

/-- Modelled from the spec: one bounded `change_history` record (§3). -/
structure ChangeRecord where
  timestamp : Rat
  significance : Rat
  changed_fields : List String
deriving DecidableEq, Repr

/-- Modelled from the spec: `MonitoredItemState` (§3) of the missing
`src/monitor.py` (`EpicMonitorState` in the tests). -/
structure MonitoredItemState where
  last_check : Option Rat
  last_snapshot : Option RequirementSnapshot
  consecutive_errors : Nat
  stories_extracted : Bool
  extracted_story_ids : List String
  change_extraction_count : Nat
  last_change_significance : Rat
  change_history : List ChangeRecord
  last_sync_result : Option SyncResult
deriving DecidableEq, Repr

/-- Modelled from the spec: the result of the Change Scorer (§4.2). -/
structure ScoreResult where
  hasChanges : Bool
  significance : Rat
  changedFields : List String
deriving DecidableEq, Repr

/-- Modelled from the spec: normalized magnitude of a description change
(§4.2, "relative edit size"): absolute length difference over the larger
length (at least 1). Lies in `[0, 1]`. -/
def descMagnitude (prev cur : String) : Rat :=
  let lp := prev.length
  let lc := cur.length
  ((max lp lc - min lp lc : Nat) : Rat) / ((max 1 (max lp lc) : Nat) : Rat)

/-- Modelled from the spec: the Change Scorer `score` (§4.2) of the missing
`src/enhanced_monitor.py` (`calculate_change_significance` in the tests).
Weights from the spec: title 0.35, description 0.30 plus a magnitude bonus
of up to 0.15, state 0.25; the sum is capped at 1.0. An absent previous
snapshot is first sight (significance 1.0); with hash comparison enabled,
matching hashes short-circuit with significance 0 and no field diff. -/
def score (cfg : MonitorConfig) (previous : Option RequirementSnapshot)
    (current : RequirementSnapshot) : ScoreResult :=
  match previous with
  | none => ⟨true, 1, ["title", "description", "state"]⟩
  | some prev =>
    if cfg.enable_content_hash_comparison = true ∧
        current.content_hash = prev.content_hash then
      ⟨false, 0, []⟩
    else
      let titleChanged : Bool := current.title ≠ prev.title
      let descChanged : Bool := current.description ≠ prev.description
      let stateChanged : Bool := current.state ≠ prev.state
      let raw : Rat :=
        (if titleChanged then (35 : Rat)/100 else 0) +
        (if descChanged then
          (30 : Rat)/100 + (15 : Rat)/100 * descMagnitude prev.description current.description
         else 0) +
        (if stateChanged then (25 : Rat)/100 else 0)
      ⟨titleChanged || descChanged || stateChanged, min 1 raw,
        (if titleChanged then ["title"] else []) ++
        (if descChanged then ["description"] else []) ++
        (if stateChanged then ["state"] else [])⟩

/-- Modelled from the spec: the decision reasons of the Decision Engine
(§4.3). -/
inductive DecideReason
  | firstSight
  | autoExtractNewDisabled
  | changeBasedDisabled
  | belowThreshold
  | capExceeded
  | cooldown
  | thresholdMet
deriving DecidableEq, Repr

/-- Modelled from the spec: the Decision Engine verdict (§4.3). -/
structure Decision where
  extract : Bool
  reason : DecideReason
deriving DecidableEq, Repr

/-- Modelled from the spec: the cooldown test (§4.3 step 5,
`_check_cooldown_period` in the tests): active iff a last sync result
exists and `now - last_sync_result.timestamp < extraction_cooldown_hours`. -/
def cooldownActive (st : MonitoredItemState) (cfg : MonitorConfig)
    (now : Rat) : Bool :=
  match st.last_sync_result with
  | none => false
  | some r => now - r.timestamp < cfg.extraction_cooldown_hours

/-- Modelled from the spec: the Decision Engine transition function
`decide` (§4.3, ordered steps 1-6) of the missing monitor module. A
manual-override force-check with `manual_override_enabled` bypasses the
cap and cooldown checks (never the threshold), per §4.3 step 5 and the
glossary. -/
def decide (st : MonitoredItemState) (cfg : MonitorConfig)
    (significance : Rat) (now : Rat) (isManualOverride : Bool) : Decision :=
  match st.last_snapshot with
  | none =>
    if cfg.auto_extract_new_epics then ⟨true, .firstSight⟩
    else ⟨false, .autoExtractNewDisabled⟩
  | some _ =>
    if cfg.enable_change_based_extraction = false then
      ⟨false, .changeBasedDisabled⟩
    else if significance < cfg.change_significance_threshold then
      ⟨false, .belowThreshold⟩
    else if isManualOverride && cfg.manual_override_enabled then
      ⟨true, .thresholdMet⟩
    else if cfg.max_changes_per_item ≤ st.change_extraction_count then
      ⟨false, .capExceeded⟩
    else if cooldownActive st cfg now then
      ⟨false, .cooldown⟩
    else
      ⟨true, .thresholdMet⟩

/-- Modelled from the spec: outcome of the external extraction workflow
(§6): `extract(id) → {success, createdIds, updatedIds, error}`. -/
structure ExtractionOutcome where
  success : Bool
  createdIds : List String
  detail : String
deriving DecidableEq, Repr

/-- Modelled from the spec: `change_history` is bounded to the last 100
entries (§3). -/
def boundHistory (l : List ChangeRecord) : List ChangeRecord :=
  l.drop (l.length - 100)

/-- Modelled from the spec: state updates after the engine decided to
extract (§4.3 final paragraph): on workflow success set
`stories_extracted`, append the created ids, increment
`change_extraction_count` only when triggered via path 6 (reason
`thresholdMet`, never first sight), set `last_sync_result`, append a
`change_history` entry; on workflow failure only record `last_sync_result`
(§7, `ExtractionError`). -/
def applyExtraction (st : MonitoredItemState) (d : Decision)
    (outcome : ExtractionOutcome) (sig : Rat) (changedFields : List String)
    (now : Rat) : MonitoredItemState :=
  if outcome.success then
    { st with
      stories_extracted := true
      extracted_story_ids := st.extracted_story_ids ++ outcome.createdIds
      change_extraction_count :=
        if d.reason = .thresholdMet then st.change_extraction_count + 1
        else st.change_extraction_count
      last_sync_result := some ⟨true, now, outcome.detail⟩
      change_history :=
        boundHistory (st.change_history ++ [⟨now, sig, changedFields⟩]) }
  else
    { st with last_sync_result := some ⟨false, now, outcome.detail⟩ }

/-- Modelled from the spec: one item's slice of the poll cycle (§4.4 steps
1-3). `fetch id = none` models retries exhausted on every attempt (or a
permanent failure): increment `consecutive_errors`, update `last_check`,
leave `last_snapshot` untouched. On success: build a snapshot, score it
against `last_snapshot`, run the Decision Engine, apply side effects,
reset `consecutive_errors`, update `last_check`. -/
def processItem (cfg : MonitorConfig) (now : Rat)
    (fetch : String → Option RawFields)
    (extractWorkflow : String → ExtractionOutcome)
    (id : String) (st : MonitoredItemState) : MonitoredItemState :=
  match fetch id with
  | none =>
    { st with
      consecutive_errors := st.consecutive_errors + 1
      last_check := some now }
  | some raw =>
    let snap := snapshot raw
    let sr := score cfg st.last_snapshot snap
    let d := ADOMonitor.decide st cfg sr.significance now false
    let st1 :=
      { st with
        consecutive_errors := 0
        last_check := some now
        last_snapshot := some snap
        last_change_significance := sr.significance }
    if d.extract then
      applyExtraction st1 d (extractWorkflow id) sr.significance sr.changedFields now
    else st1

/-- Modelled from the spec: one poll cycle over the monitored ids (§4.4):
the id list is snapshotted up front and each item is processed in turn;
every item is processed regardless of other items' outcomes. The store is
a map from item id to its state. -/
def runCycle (cfg : MonitorConfig) (now : Rat)
    (fetch : String → Option RawFields)
    (extractWorkflow : String → ExtractionOutcome)
    (ids : List String)
    (store : String → Option MonitoredItemState) :
    String → Option MonitoredItemState :=
  ids.foldl
    (fun s id =>
      match s id with
      | none => s
      | some st =>
        fun j =>
          if j = id then some (processItem cfg now fetch extractWorkflow id st)
          else s j)
    store

theorem descMagnitude_nonneg (prev cur : String) : 0 ≤ descMagnitude prev cur := by
  unfold descMagnitude
  apply div_nonneg
  · exact_mod_cast Nat.zero_le _
  · exact_mod_cast Nat.zero_le _

theorem descMagnitude_le_one (prev cur : String) : descMagnitude prev cur ≤ 1 := by
  unfold descMagnitude
  rw [div_le_one]
  · exact_mod_cast Nat.le_trans (Nat.sub_le _ _) (Nat.le_max_right 1 _)
  · exact_mod_cast Nat.lt_of_lt_of_le Nat.zero_lt_one (Nat.le_max_left 1 _)

theorem score_significance_nonneg (cfg : MonitorConfig)
    (previous : Option RequirementSnapshot) (current : RequirementSnapshot) :
    0 ≤ (score cfg previous current).significance := by
  cases previous with
  | none => simp [score]
  | some prev =>
    simp only [score]
    split
    · norm_num
    · refine le_min (by norm_num) (add_nonneg (add_nonneg ?_ ?_) ?_)
      · split
        · norm_num
        · norm_num
      · split
        · have hmag := descMagnitude_nonneg prev.description current.description
          have hmul : (0:Rat) ≤ (15:Rat)/100 * descMagnitude prev.description current.description :=
            mul_nonneg (by norm_num) hmag
          linarith
        · norm_num
      · split
        · norm_num
        · norm_num

theorem score_significance_le_one (cfg : MonitorConfig)
    (previous : Option RequirementSnapshot) (current : RequirementSnapshot) :
    (score cfg previous current).significance ≤ 1 := by
  cases previous with
  | none => simp [score]
  | some prev =>
    simp only [score]
    split
    · norm_num
    · exact min_le_left _ _

theorem applyExtraction_last_change_significance
    (st : MonitoredItemState) (d : Decision) (outcome : ExtractionOutcome)
    (sig : Rat) (fields : List String) (now : Rat) :
    (applyExtraction st d outcome sig fields now).last_change_significance =
      st.last_change_significance := by
  unfold applyExtraction
  split <;> rfl

end ADOMonitor

namespace MonitorAPI

open ADOMonitor

/-- The `Settings` fields read by `get_config` in `src/monitor_api.py`
(`config/settings.py` is not in the checkout; the fields are those the
handler reads, secrets included). -/
structure Settings where
  ADO_ORGANIZATION : String
  ADO_PROJECT : String
  ADO_PAT : String
  OPENAI_API_KEY : String
  openai_model : String
  story_extraction_type : String
  test_case_extraction_type : String
deriving DecidableEq, Repr

/-- The server-side state a `MonitorAPI` route handler touches:
whether a monitor instance is configured, whether its loop is running
(`monitor.is_running`), the monitor config, and the keys of
`monitor.monitored_epics`. -/
structure APIState where
  monitorConfigured : Bool
  is_running : Bool
  config : MonitorConfig
  monitored_epics : List String
deriving DecidableEq, Repr

/-- A JSON route response, reduced to the fields the claims are about:
the `success` flag and the `error` message (absent on success paths). -/
structure APIResponse where
  success : Bool
  error : Option String
deriving DecidableEq, Repr

/-- `start_monitor` (`src/monitor_api.py:70-107`): fail if no monitor is
configured; fail and change nothing if `monitor.is_running`; otherwise
start the monitor loop in a thread. The started loop itself lives in the
missing `src/monitor.py`; starting is modelled from the spec (§4.4,
`STOPPED → RUNNING`) as setting `is_running`. -/
def start_monitor (st : APIState) : APIResponse × APIState :=
  if st.monitorConfigured = false then
    (⟨false, some "Monitor not configured. Please restart the API with monitor configuration."⟩, st)
  else if st.is_running then
    (⟨false, some "Monitor is already running"⟩, st)
  else
    (⟨true, none⟩, { st with is_running := true })

/-- `stop_monitor` (`src/monitor_api.py:109-138`): fail if no monitor is
configured; fail and change nothing if the monitor is not running;
otherwise stop it (modelled from the spec §4.4, `RUNNING → STOPPED`). -/
def stop_monitor (st : APIState) : APIResponse × APIState :=
  if st.monitorConfigured = false then
    (⟨false, some "Monitor not configured"⟩, st)
  else if st.is_running = false then
    (⟨false, some "Monitor is not running"⟩, st)
  else
    (⟨true, none⟩, { st with is_running := false })

/-- The JSON document returned by `get_config`
(`src/monitor_api.py:271-296`). -/
structure ConfigDoc where
  ado_organization : String
  ado_project : String
  ado_pat : String
  openai_api_key : String
  openai_model : String
  story_extraction_type : String
  test_case_extraction_type : String
  check_interval_minutes : Int
  epic_ids : List String
  auto_sync : Bool
  auto_extract_new_epics : Bool
deriving DecidableEq, Repr

/-- `get_config` (`src/monitor_api.py:271-296`): `none` when no monitor is
configured (error response), otherwise the config document. The secrets
are replaced by the literal `"***hidden***"`; `check_interval_minutes` is
`poll_interval_seconds // 60` when `poll_interval_seconds` is truthy
(nonzero), else 5. Python `//` is floor division (`Int.fdiv`). -/
def get_config (st : APIState) (s : Settings) : Option ConfigDoc :=
  if st.monitorConfigured = false then none
  else some
    { ado_organization := s.ADO_ORGANIZATION
      ado_project := s.ADO_PROJECT
      ado_pat := "***hidden***"
      openai_api_key := "***hidden***"
      openai_model := s.openai_model
      story_extraction_type := s.story_extraction_type
      test_case_extraction_type := s.test_case_extraction_type
      check_interval_minutes :=
        if st.config.poll_interval_seconds ≠ 0 then
          Int.fdiv st.config.poll_interval_seconds 60
        else 5
      epic_ids := st.monitored_epics
      auto_sync := st.config.auto_sync
      auto_extract_new_epics := st.config.auto_extract_new_epics }

/-- The request body of `update_config` (`src/monitor_api.py:298-361`),
restricted to the keys the handler reads plus
`change_significance_threshold`, which a client may send but the handler
never reads. `none` = key absent from the JSON body. -/
structure UpdateData where
  check_interval_minutes : Option Int
  auto_sync : Option Bool
  auto_extract_new_epics : Option Bool
  epic_ids : Option (List String)
  change_significance_threshold : Option Rat
deriving DecidableEq, Repr

/-- `update_config` (`src/monitor_api.py:298-361`): error if no monitor is
configured or no body was provided; otherwise apply
`check_interval_minutes` (stored as `minutes * 60` seconds), `auto_sync`,
`auto_extract_new_epics`, and replace the monitored-epic key set when
`epic_ids` is given. No field value is range-validated and unrecognized
keys (e.g. `change_significance_threshold`) are ignored; the handler then
reports success. (The best-effort write of `monitor_config.json` has no
effect on the in-memory state and is not modelled.) -/
def update_config (st : APIState) (data : Option UpdateData) :
    APIResponse × APIState :=
  if st.monitorConfigured = false then
    (⟨false, some "Monitor not configured"⟩, st)
  else
    match data with
    | none => (⟨false, some "No configuration data provided"⟩, st)
    | some d =>
      let st1 :=
        match d.check_interval_minutes with
        | some m =>
          { st with config := { st.config with poll_interval_seconds := m * 60 } }
        | none => st
      let st2 :=
        match d.auto_sync with
        | some b => { st1 with config := { st1.config with auto_sync := b } }
        | none => st1
      let st3 :=
        match d.auto_extract_new_epics with
        | some b => { st2 with config := { st2.config with auto_extract_new_epics := b } }
        | none => st2
      let st4 :=
        match d.epic_ids with
        | some ids =>
          { st3 with monitored_epics :=
              st3.monitored_epics.filter (fun e => e ∈ ids) ++
              ids.eraseDups.filter (fun e => e ∉ st3.monitored_epics) }
        | none => st3
      (⟨true, none⟩, st4)

/-- Python list slicing `l[i:]` for an arbitrary integer index `i`. -/
def pySliceFrom (i : Int) (l : List α) : List α :=
  if 0 ≤ i then l.drop i.toNat
  else l.drop (l.length - (-i).toNat)

/-- Python `str.strip()`: remove leading and trailing whitespace. -/
def pyStrip (s : String) : String :=
  ⟨((s.data.dropWhile (fun c => c.isWhitespace)).reverse.dropWhile
      (fun c => c.isWhitespace)).reverse⟩

/-- `get_logs` (`src/monitor_api.py:486-554`): clamp the requested line
count at 1000, return `[]` when the log file is absent or unreadable,
otherwise take `all_lines[-lines:]` when the file has more than `lines`
lines (else all of them) and emit one entry per nonblank stripped line.
The per-entry JSON formatting (timestamp/level/component parsing) is
one-to-one per line and is abstracted to the stripped line itself. -/
def get_logs (linesParam : Int) (fileExists : Bool) (readable : Bool)
    (fileLines : List String) : List String :=
  let lines := min linesParam 1000
  if fileExists = false then []
  else if readable = false then []
  else
    let all_lines := fileLines
    let recent_lines :=
      if (all_lines.length : Int) > lines then pySliceFrom (-lines) all_lines
      else all_lines
    (recent_lines.map (fun l => pyStrip l)).filter (fun l => l ≠ "")

end MonitorAPI

namespace ADOMonitor

/-! Sample values shared by the witness theorems. -/

/-- A sample monitor configuration with every check enabled. -/
def sampleConfig : MonitorConfig :=
  { poll_interval_seconds := 60
    auto_sync := true
    auto_extract_new_epics := true
    skip_duplicate_check := false
    extraction_cooldown_hours := 12
    enable_content_hash_comparison := true
    enable_change_based_extraction := true
    change_significance_threshold := 2/5
    max_changes_per_item := 5
    retry_attempts := 3
    retry_delay_seconds := 60
    manual_override_enabled := true }

/-- A freshly added item: no snapshot yet, nothing extracted. -/
def sampleNewState : MonitoredItemState :=
  { last_check := none
    last_snapshot := none
    consecutive_errors := 0
    stories_extracted := false
    extracted_story_ids := []
    change_extraction_count := 0
    last_change_significance := 0
    change_history := []
    last_sync_result := none }

/-- A sample snapshot, as built by `snapshot`. -/
def sampleSnap : RequirementSnapshot :=
  snapshot { id := "42", title := some "T", description := some "D", state := some "New" }

/-- An item that has a snapshot and a successful sync at time 100. -/
def sampleSyncedState : MonitoredItemState :=
  { last_check := some 100
    last_snapshot := some sampleSnap
    consecutive_errors := 0
    stories_extracted := true
    extracted_story_ids := ["s1"]
    change_extraction_count := 1
    last_change_significance := 3/5
    change_history := []
    last_sync_result := some { success := true, timestamp := 100, detail := "ok" } }

/-- C1: a NEW item (no `last_snapshot`) with `auto_extract_new_epics` on is
always extracted — the verdict is `extract = true` with reason first
sight, for every threshold, cooldown, extraction count and cap — and
applying a first-sight extraction leaves `change_extraction_count` at
0. -/
theorem decide_new_item_extracts_unconditionally
    (st : MonitoredItemState) (cfg : MonitorConfig) (sig now : Rat)
    (ov : Bool) (outcome : ExtractionOutcome) (fields : List String)
    (hnew : st.last_snapshot = none)
    (hauto : cfg.auto_extract_new_epics = true)
    (hcount : st.change_extraction_count = 0) :
    (ADOMonitor.decide st cfg sig now ov).extract = true ∧
    (ADOMonitor.decide st cfg sig now ov).reason = DecideReason.firstSight ∧
    (applyExtraction st (ADOMonitor.decide st cfg sig now ov)
        outcome sig fields now).change_extraction_count = 0 := by
  have hd : ADOMonitor.decide st cfg sig now ov = ⟨true, .firstSight⟩ := by
    unfold ADOMonitor.decide
    rw [hnew, hauto]
    simp
  refine ⟨by rw [hd], by rw [hd], ?_⟩
  rw [hd]
  unfold applyExtraction
  cases hs : outcome.success <;> simp [hs, hcount]

/-- C1 witness: the unconditional first-sight verdict at a concrete NEW
item and a concrete configuration. -/
theorem decide_new_item_extracts_unconditionally_witness :
    sampleNewState.last_snapshot = none ∧
    sampleConfig.auto_extract_new_epics = true ∧
    sampleNewState.change_extraction_count = 0 ∧
    ((ADOMonitor.decide sampleNewState sampleConfig (1/2) 100 false).extract = true ∧
     (ADOMonitor.decide sampleNewState sampleConfig (1/2) 100 false).reason = DecideReason.firstSight ∧
     (applyExtraction sampleNewState
        (ADOMonitor.decide sampleNewState sampleConfig (1/2) 100 false)
        ⟨true, ["s9"], "ok"⟩ (1/2) ["title"] 100).change_extraction_count = 0) :=
  ⟨rfl, rfl, rfl,
    decide_new_item_extracts_unconditionally sampleNewState sampleConfig (1/2) 100 false
      ⟨true, ["s9"], "ok"⟩ ["title"] rfl rfl rfl⟩

/-- The stored significance after one item's poll step is either the old
stored value (fetch failed) or the freshly computed score. -/
theorem processItem_last_change_significance (cfg : MonitorConfig) (now : Rat)
    (fetch : String → Option RawFields) (ew : String → ExtractionOutcome)
    (id : String) (st : MonitoredItemState) :
    (processItem cfg now fetch ew id st).last_change_significance =
      st.last_change_significance ∨
    ∃ raw, fetch id = some raw ∧
      (processItem cfg now fetch ew id st).last_change_significance =
        (score cfg st.last_snapshot (snapshot raw)).significance := by
  cases hf : fetch id with
  | none =>
    left
    simp only [processItem, hf]
  | some raw =>
    right
    refine ⟨raw, rfl, ?_⟩
    simp only [processItem, hf]
    split
    · rw [applyExtraction_last_change_significance]
    · rfl

/-- C4: the Change Scorer always returns a significance in `[0, 1]` — the
weighted sum is capped at 1 and each contribution is nonnegative — and
consequently the stored `last_change_significance` stays in `[0, 1]`
across every poll step. -/
theorem score_range_and_stored_significance
    (cfg : MonitorConfig) (previous : Option RequirementSnapshot)
    (current : RequirementSnapshot) (now : Rat)
    (fetch : String → Option RawFields) (ew : String → ExtractionOutcome)
    (id : String) (st : MonitoredItemState)
    (hst : 0 ≤ st.last_change_significance ∧ st.last_change_significance ≤ 1) :
    (0 ≤ (score cfg previous current).significance ∧
      (score cfg previous current).significance ≤ 1) ∧
    (0 ≤ (processItem cfg now fetch ew id st).last_change_significance ∧
      (processItem cfg now fetch ew id st).last_change_significance ≤ 1) := by
  refine ⟨⟨score_significance_nonneg cfg previous current,
           score_significance_le_one cfg previous current⟩, ?_⟩
  rcases processItem_last_change_significance cfg now fetch ew id st with h | ⟨raw, _, h⟩
  · rw [h]; exact hst
  · rw [h]
    exact ⟨score_significance_nonneg cfg st.last_snapshot (snapshot raw),
           score_significance_le_one cfg st.last_snapshot (snapshot raw)⟩

/-- C4 witness: the bounds at a concrete snapshot pair and a concrete poll
step. -/
theorem score_range_and_stored_significance_witness :
    (0 ≤ sampleSyncedState.last_change_significance ∧
      sampleSyncedState.last_change_significance ≤ 1) ∧
    ((0 ≤ (score sampleConfig (some sampleSnap) sampleSnap).significance ∧
       (score sampleConfig (some sampleSnap) sampleSnap).significance ≤ 1) ∧
     (0 ≤ (processItem sampleConfig 100 (fun _ => none) (fun _ => ⟨true, [], ""⟩)
            "42" sampleSyncedState).last_change_significance ∧
      (processItem sampleConfig 100 (fun _ => none) (fun _ => ⟨true, [], ""⟩)
            "42" sampleSyncedState).last_change_significance ≤ 1)) :=
  ⟨⟨by norm_num [sampleSyncedState], by norm_num [sampleSyncedState]⟩,
    score_range_and_stored_significance sampleConfig (some sampleSnap) sampleSnap 100
      (fun _ => none) (fun _ => ⟨true, [], ""⟩) "42" sampleSyncedState
      ⟨by norm_num [sampleSyncedState], by norm_num [sampleSyncedState]⟩⟩

/-- C3: for an item with a snapshot and a recorded sync at time `T`, when
the other conditions hold (change-based extraction enabled, significance
at or above threshold, cap not reached), a non-override decision within
the cooldown window (`now - T < H`) is `extract = false` with reason
cooldown; past the window (`now - T > H`) it is `extract = true`; a
manual-override request with `manual_override_enabled` bypasses the
cooldown at any time, and with `manual_override_enabled = false` a
force-check is still blocked by the cooldown. -/
theorem decide_cooldown_enforcement
    (st : MonitoredItemState) (cfg : MonitorConfig) (sig now : Rat)
    (snap : RequirementSnapshot) (r : SyncResult)
    (hsnap : st.last_snapshot = some snap)
    (hen : cfg.enable_change_based_extraction = true)
    (hth : cfg.change_significance_threshold ≤ sig)
    (hcap : st.change_extraction_count < cfg.max_changes_per_item)
    (hsync : st.last_sync_result = some r) :
    (now - r.timestamp < cfg.extraction_cooldown_hours →
        ADOMonitor.decide st cfg sig now false = ⟨false, DecideReason.cooldown⟩) ∧
    (cfg.extraction_cooldown_hours < now - r.timestamp →
        ADOMonitor.decide st cfg sig now false = ⟨true, DecideReason.thresholdMet⟩) ∧
    (cfg.manual_override_enabled = true →
        ADOMonitor.decide st cfg sig now true = ⟨true, DecideReason.thresholdMet⟩) ∧
    (cfg.manual_override_enabled = false →
        now - r.timestamp < cfg.extraction_cooldown_hours →
        ADOMonitor.decide st cfg sig now true = ⟨false, DecideReason.cooldown⟩) := by
  have hth' : ¬ (sig < cfg.change_significance_threshold) := not_lt.mpr hth
  have hcap' : ¬ (cfg.max_changes_per_item ≤ st.change_extraction_count) := not_le.mpr hcap
  refine ⟨?_, ?_, ?_, ?_⟩
  · intro h
    simp [ADOMonitor.decide, hsnap, hen, hth', hcap', cooldownActive, hsync, h]
  · intro h
    have h' : ¬ (now - r.timestamp < cfg.extraction_cooldown_hours) :=
      not_lt.mpr (le_of_lt h)
    simp [ADOMonitor.decide, hsnap, hen, hth', hcap', cooldownActive, hsync, h']
  · intro h
    simp [ADOMonitor.decide, hsnap, hen, hth', h]
  · intro h hcd
    simp [ADOMonitor.decide, hsnap, hen, hth', hcap', cooldownActive, hsync, h, hcd]

/-- C3 witness: the cooldown verdicts at a concrete synced item (last sync
at time 100, cooldown 12 hours): blocked at time 106, allowed at time 200,
bypassed by a manual override at time 106. -/
theorem decide_cooldown_enforcement_witness :
    sampleSyncedState.last_snapshot = some sampleSnap ∧
    sampleConfig.enable_change_based_extraction = true ∧
    sampleConfig.change_significance_threshold ≤ 3/5 ∧
    sampleSyncedState.change_extraction_count < sampleConfig.max_changes_per_item ∧
    sampleSyncedState.last_sync_result = some ⟨true, 100, "ok"⟩ ∧
    ADOMonitor.decide sampleSyncedState sampleConfig (3/5) 106 false
      = ⟨false, DecideReason.cooldown⟩ ∧
    ADOMonitor.decide sampleSyncedState sampleConfig (3/5) 200 false
      = ⟨true, DecideReason.thresholdMet⟩ ∧
    ADOMonitor.decide sampleSyncedState sampleConfig (3/5) 106 true
      = ⟨true, DecideReason.thresholdMet⟩ :=
  ⟨rfl, rfl, by norm_num [sampleConfig], by norm_num [sampleConfig, sampleSyncedState], rfl,
    (decide_cooldown_enforcement sampleSyncedState sampleConfig (3/5) 106 sampleSnap
      ⟨true, 100, "ok"⟩ rfl rfl (by norm_num [sampleConfig])
      (by norm_num [sampleConfig, sampleSyncedState]) rfl).1 (by norm_num [sampleConfig]),
    (decide_cooldown_enforcement sampleSyncedState sampleConfig (3/5) 200 sampleSnap
      ⟨true, 100, "ok"⟩ rfl rfl (by norm_num [sampleConfig])
      (by norm_num [sampleConfig, sampleSyncedState]) rfl).2.1 (by norm_num [sampleConfig]),
    (decide_cooldown_enforcement sampleSyncedState sampleConfig (3/5) 106 sampleSnap
      ⟨true, 100, "ok"⟩ rfl rfl (by norm_num [sampleConfig])
      (by norm_num [sampleConfig, sampleSyncedState]) rfl).2.2.1 rfl⟩

/-- C5: with content-hash comparison enabled, two snapshots with equal
hashes score as no change: `hasChanges = false`, `significance = 0`, and
the changed-field diff is empty (the detailed diff is skipped). -/
theorem score_hash_match_short_circuits
    (cfg : MonitorConfig) (prev cur : RequirementSnapshot)
    (hcfg : cfg.enable_content_hash_comparison = true)
    (hhash : cur.content_hash = prev.content_hash) :
    score cfg (some prev) cur = ⟨false, 0, []⟩ := by
  unfold score
  simp [hcfg, hhash]

/-- C5 witness: two concrete snapshots sharing a content hash (same title
and description, different state) short-circuit to significance 0. -/
theorem score_hash_match_short_circuits_witness :
    sampleConfig.enable_content_hash_comparison = true ∧
    (snapshot { id := "42", title := some "T", description := some "D", state := some "Active" }).content_hash
      = sampleSnap.content_hash ∧
    score sampleConfig (some sampleSnap)
      (snapshot { id := "42", title := some "T", description := some "D", state := some "Active" })
      = ⟨false, 0, []⟩ :=
  ⟨rfl, rfl,
    score_hash_match_short_circuits sampleConfig sampleSnap
      (snapshot { id := "42", title := some "T", description := some "D", state := some "Active" })
      rfl rfl⟩

theorem runCycle_untouched (cfg : MonitorConfig) (now : Rat)
    (fetch : String → Option RawFields) (ew : String → ExtractionOutcome)
    (a : String) :
    ∀ (ids : List String) (store : String → Option MonitoredItemState),
      a ∉ ids → runCycle cfg now fetch ew ids store a = store a := by
  intro ids
  induction ids with
  | nil => intro store _; rfl
  | cons x xs ih =>
    intro store ha
    simp only [List.mem_cons, not_or] at ha
    obtain ⟨hax, haxs⟩ := ha
    simp only [runCycle, List.foldl_cons] at *
    rw [ih _ haxs]
    cases hx : store x with
    | none => simp [hx]
    | some stx => simp [hx, hax]

theorem runCycle_processes_each (cfg : MonitorConfig) (now : Rat)
    (fetch : String → Option RawFields) (ew : String → ExtractionOutcome)
    (a : String) :
    ∀ (ids : List String) (store : String → Option MonitoredItemState)
      (st : MonitoredItemState),
      ids.Nodup → a ∈ ids → store a = some st →
      runCycle cfg now fetch ew ids store a =
        some (processItem cfg now fetch ew a st) := by
  intro ids
  induction ids with
  | nil => intro store st _ ha _; cases ha
  | cons x xs ih =>
    intro store st hnd ha hsa
    have hxnotin : x ∉ xs := (List.nodup_cons.mp hnd).1
    have hndxs : xs.Nodup := (List.nodup_cons.mp hnd).2
    simp only [runCycle, List.foldl_cons]
    rcases List.mem_cons.mp ha with rfl | haxs
    · rw [hsa]
      have hrest := runCycle_untouched cfg now fetch ew a xs
        (fun j => if j = a then some (processItem cfg now fetch ew a st)
          else store j) hxnotin
      simp only [runCycle] at hrest
      rw [hrest]
      simp
    · have hax : a ≠ x := fun h => hxnotin (h ▸ haxs)
      cases hx : store x with
      | none => exact ih _ st hndxs haxs hsa
      | some stx =>
        refine ih _ st hndxs haxs ?_
        show (if a = x then some (processItem cfg now fetch ew x stx) else store a) = some st
        rw [if_neg hax, hsa]

/-- C6: in a poll cycle over distinct monitored ids, an item `a` whose
fetch fails on every retry attempt ends the cycle with
`consecutive_errors` incremented, `last_check` set to the cycle time and
`last_snapshot` untouched, while any other item `b` is updated exactly as
by its own poll step — one item's failure never aborts the cycle for the
others. -/
theorem runCycle_error_isolation (cfg : MonitorConfig) (now : Rat)
    (fetch : String → Option RawFields) (ew : String → ExtractionOutcome)
    (ids : List String) (store : String → Option MonitoredItemState)
    (a b : String) (sta stb : MonitoredItemState)
    (hnd : ids.Nodup) (ha : a ∈ ids) (hb : b ∈ ids)
    (hfa : fetch a = none)
    (hsa : store a = some sta) (hsb : store b = some stb) :
    runCycle cfg now fetch ew ids store a =
      some { sta with
              consecutive_errors := sta.consecutive_errors + 1
              last_check := some now } ∧
    (runCycle cfg now fetch ew ids store a).map
        (fun st => st.last_snapshot) = some sta.last_snapshot ∧
    runCycle cfg now fetch ew ids store b =
      some (processItem cfg now fetch ew b stb) := by
  have hA := runCycle_processes_each cfg now fetch ew a ids store sta hnd ha hsa
  have hB := runCycle_processes_each cfg now fetch ew b ids store stb hnd hb hsb
  have hpa : processItem cfg now fetch ew a sta =
      { sta with
        consecutive_errors := sta.consecutive_errors + 1
        last_check := some now } := by
    simp only [processItem, hfa]
  refine ⟨by rw [hA, hpa], ?_, hB⟩
  rw [hA, hpa]
  rfl

/-- A fetch oracle for the C6 witness: item "99" fails every retry, item
"42" fetches fresh fields. -/
def sampleFetch : String → Option RawFields := fun id =>
  if id = "99" then none
  else some { id := id, title := some "T", description := some "D", state := some "New" }

/-- A store for the C6 witness holding the two items "99" and "42". -/
def sampleStore : String → Option MonitoredItemState := fun id =>
  if id = "99" then some sampleSyncedState
  else if id = "42" then some sampleNewState
  else none

/-- C6 witness: in a concrete two-item cycle where fetching "99" fails and
fetching "42" succeeds, "99" only gains an error count and a check time
while "42" is processed normally. -/
theorem runCycle_error_isolation_witness :
    ["99", "42"].Nodup ∧ "99" ∈ (["99", "42"] : List String) ∧
    "42" ∈ (["99", "42"] : List String) ∧
    sampleFetch "99" = none ∧
    sampleStore "99" = some sampleSyncedState ∧
    sampleStore "42" = some sampleNewState ∧
    (runCycle sampleConfig 100 sampleFetch (fun _ => ⟨true, ["s2"], "ok"⟩)
        ["99", "42"] sampleStore "99" =
      some { sampleSyncedState with
              consecutive_errors := sampleSyncedState.consecutive_errors + 1
              last_check := some 100 } ∧
     (runCycle sampleConfig 100 sampleFetch (fun _ => ⟨true, ["s2"], "ok"⟩)
        ["99", "42"] sampleStore "99").map
          (fun st => st.last_snapshot) = some sampleSyncedState.last_snapshot ∧
     runCycle sampleConfig 100 sampleFetch (fun _ => ⟨true, ["s2"], "ok"⟩)
        ["99", "42"] sampleStore "42" =
      some (processItem sampleConfig 100 sampleFetch
              (fun _ => ⟨true, ["s2"], "ok"⟩) "42" sampleNewState)) :=
  ⟨by decide, by decide, by decide, rfl, rfl, rfl,
    runCycle_error_isolation sampleConfig 100 sampleFetch
      (fun _ => ⟨true, ["s2"], "ok"⟩) ["99", "42"] sampleStore "99" "42"
      sampleSyncedState sampleNewState (by decide) (by decide) (by decide)
      rfl rfl rfl⟩

end ADOMonitor

namespace MonitorAPI

open ADOMonitor

/-- A sample API server state with a configured, stopped monitor. -/
def sampleAPIState : APIState :=
  { monitorConfigured := true
    is_running := false
    config := ADOMonitor.sampleConfig
    monitored_epics := ["42"] }

/-- Sample dashboard settings, secrets included. -/
def sampleSettings : Settings :=
  { ADO_ORGANIZATION := "org"
    ADO_PROJECT := "proj"
    ADO_PAT := "real-pat-1"
    OPENAI_API_KEY := "sk-real-key-1"
    openai_model := "gpt-4"
    story_extraction_type := "User Story"
    test_case_extraction_type := "Issue" }

/-- C7: `start_monitor` on an already-running monitor reports failure and
leaves the server state unchanged, and `stop_monitor` on a non-running
monitor reports failure and leaves the server state unchanged (in both
directions this holds whether or not a monitor is configured, since the
not-configured guard also returns failure without touching state). -/
theorem start_stop_guards (st stopped : APIState)
    (hrun : st.is_running = true) (hstop : stopped.is_running = false) :
    ((start_monitor st).1.success = false ∧ (start_monitor st).2 = st) ∧
    ((stop_monitor stopped).1.success = false ∧ (stop_monitor stopped).2 = stopped) := by
  constructor
  · cases hc : st.monitorConfigured <;>
      simp [start_monitor, hc, hrun]
  · cases hc : stopped.monitorConfigured <;>
      simp [stop_monitor, hc, hstop]

/-- C7 witness: the guards at concrete running and stopped states. -/
theorem start_stop_guards_witness :
    ({ sampleAPIState with is_running := true } : APIState).is_running = true ∧
    sampleAPIState.is_running = false ∧
    (((start_monitor { sampleAPIState with is_running := true }).1.success = false ∧
      (start_monitor { sampleAPIState with is_running := true }).2 =
        { sampleAPIState with is_running := true }) ∧
     ((stop_monitor sampleAPIState).1.success = false ∧
      (stop_monitor sampleAPIState).2 = sampleAPIState)) :=
  ⟨rfl, rfl, start_stop_guards { sampleAPIState with is_running := true }
      sampleAPIState rfl rfl⟩

/-- C8: every successful `get_config` response carries the literal
`"***hidden***"` in `ado_pat` and `openai_api_key`, so two runs that
differ only in the stored secrets return identical values for those two
fields. -/
theorem get_config_masks_secrets (st : APIState) (s : Settings)
    (doc : ConfigDoc) (h : get_config st s = some doc) :
    doc.ado_pat = "***hidden***" ∧ doc.openai_api_key = "***hidden***" ∧
    ∀ s2 doc2, get_config st s2 = some doc2 →
      doc2.ado_pat = doc.ado_pat ∧ doc2.openai_api_key = doc.openai_api_key := by
  cases hc : st.monitorConfigured with
  | false => simp [get_config, hc] at h
  | true =>
    simp only [get_config, hc] at h
    simp only [Bool.true_eq_false, if_false, Option.some.injEq] at h
    subst h
    refine ⟨rfl, rfl, ?_⟩
    intro s2 doc2 h2
    simp only [get_config, hc, Bool.true_eq_false, if_false, Option.some.injEq] at h2
    subst h2
    exact ⟨rfl, rfl⟩

/-- The settings of a second run, differing from `sampleSettings` only in
the two secrets. -/
def sampleSettings2 : Settings :=
  { sampleSettings with ADO_PAT := "other-pat", OPENAI_API_KEY := "sk-other" }

/-- The config document `get_config` returns for `sampleAPIState` under
either sample settings. -/
def sampleDoc : ConfigDoc :=
  { ado_organization := "org"
    ado_project := "proj"
    ado_pat := "***hidden***"
    openai_api_key := "***hidden***"
    openai_model := "gpt-4"
    story_extraction_type := "User Story"
    test_case_extraction_type := "Issue"
    check_interval_minutes := 1
    epic_ids := ["42"]
    auto_sync := true
    auto_extract_new_epics := true }

/-- C8 witness: at a concrete state, two settings differing only in the
real secrets produce the same document, with both secret fields equal to
the masked literal. -/
theorem get_config_masks_secrets_witness :
    get_config sampleAPIState sampleSettings = some sampleDoc ∧
    get_config sampleAPIState sampleSettings2 = some sampleDoc ∧
    sampleDoc.ado_pat = "***hidden***" ∧
    sampleDoc.openai_api_key = "***hidden***" :=
  ⟨by decide, by decide,
    (get_config_masks_secrets sampleAPIState sampleSettings sampleDoc (by decide)).1,
    (get_config_masks_secrets sampleAPIState sampleSettings sampleDoc (by decide)).2.1⟩

/-- An update request carrying only a positive whole-minute interval. -/
def intervalUpdate (m : Int) : UpdateData :=
  { check_interval_minutes := some m
    auto_sync := none
    auto_extract_new_epics := none
    epic_ids := none
    change_significance_threshold := none }

/-- An update request carrying only an (out-of-range) significance
threshold, a key `update_config` never reads. -/
def thresholdUpdate (x : Rat) : UpdateData :=
  { check_interval_minutes := none
    auto_sync := none
    auto_extract_new_epics := none
    epic_ids := none
    change_significance_threshold := some x }

/-- C10: for every positive whole number of minutes `m`, updating
`check_interval_minutes` to `m` stores `m * 60` seconds, and a subsequent
`get_config` reads back `m * 60 // 60 = m`: the write-then-read
round-trip is the identity on positive whole minutes. -/
theorem update_then_get_interval_roundtrip (st : APIState) (s : Settings)
    (m : Int) (hconf : st.monitorConfigured = true) (hm : 0 < m) :
    (update_config st (some (intervalUpdate m))).2.config.poll_interval_seconds = m * 60 ∧
    (get_config (update_config st (some (intervalUpdate m))).2 s).map
      (fun doc => doc.check_interval_minutes) = some m := by
  have hupd : (update_config st (some (intervalUpdate m))).2 =
      { st with config := { st.config with poll_interval_seconds := m * 60 } } := by
    simp [update_config, hconf, intervalUpdate]
  refine ⟨by rw [hupd], ?_⟩
  rw [hupd]
  have hne : m * 60 ≠ 0 := by omega
  simp [get_config, hconf, hne, Int.mul_fdiv_cancel m (by norm_num : (60:Int) ≠ 0)]

/-- C10 witness: the round-trip at 7 minutes on a concrete state. -/
theorem update_then_get_interval_roundtrip_witness :
    sampleAPIState.monitorConfigured = true ∧ (0:Int) < 7 ∧
    ((update_config sampleAPIState (some (intervalUpdate 7))).2.config.poll_interval_seconds
        = 7 * 60 ∧
     (get_config (update_config sampleAPIState (some (intervalUpdate 7))).2
        sampleSettings).map (fun doc => doc.check_interval_minutes) = some 7) :=
  ⟨rfl, by norm_num,
    update_then_get_interval_roundtrip sampleAPIState sampleSettings 7 rfl (by norm_num)⟩

/-- C2 counterexample: no `ConfigValidationError` exists in the code and
`update_config` validates nothing. At a concrete state, the update
`{change_significance_threshold: 1.5}` is answered with success (not an
error), and the update `{check_interval_minutes: -5}` is also answered
with success and mutates the stored config to a negative
`poll_interval_seconds`, so the prior config is not left intact. -/
theorem update_config_accepts_invalid_counterexample :
    (update_config sampleAPIState (some (thresholdUpdate (3/2)))).1 =
      { success := true, error := none } ∧
    (update_config sampleAPIState (some (intervalUpdate (-5)))).1 =
      { success := true, error := none } ∧
    (update_config sampleAPIState (some (intervalUpdate (-5)))).2.config.poll_interval_seconds
      = -300 ∧
    sampleAPIState.config.poll_interval_seconds = 60 :=
  ⟨by decide, by decide, by decide, by decide⟩

/-- C2 amended: `update_config` performs no range validation and signals
no validation error. An update carrying only an out-of-range
`change_significance_threshold` — a key the handler never reads — returns
success and leaves the whole server state (hence the prior config)
unchanged; an update with a negative `check_interval_minutes` returns
success and stores the out-of-range value `m * 60 < 0` as the new poll
interval. -/
theorem update_config_no_validation (st : APIState) (x : Rat) (m : Int)
    (hconf : st.monitorConfigured = true) (hm : m < 0) :
    update_config st (some (thresholdUpdate x)) =
      ({ success := true, error := none }, st) ∧
    (update_config st (some (intervalUpdate m))).1 =
      { success := true, error := none } ∧
    (update_config st (some (intervalUpdate m))).2 =
      { st with config := { st.config with poll_interval_seconds := m * 60 } } ∧
    m * 60 < 0 := by
  refine ⟨?_, ?_, ?_, by omega⟩
  · simp [update_config, hconf, thresholdUpdate]
  · simp [update_config, hconf, intervalUpdate]
  · simp [update_config, hconf, intervalUpdate]

/-- C2 amended witness: the two unvalidated updates at a concrete state. -/
theorem update_config_no_validation_witness :
    sampleAPIState.monitorConfigured = true ∧ (-5 : Int) < 0 ∧
    (update_config sampleAPIState (some (thresholdUpdate (3/2))) =
        ({ success := true, error := none }, sampleAPIState) ∧
     (update_config sampleAPIState (some (intervalUpdate (-5)))).1 =
        { success := true, error := none } ∧
     (update_config sampleAPIState (some (intervalUpdate (-5)))).2 =
        { sampleAPIState with
            config := { sampleAPIState.config with poll_interval_seconds := -5 * 60 } } ∧
     (-5 : Int) * 60 < 0) :=
  ⟨rfl, by norm_num,
    update_config_no_validation sampleAPIState (3/2) (-5) rfl (by norm_num)⟩

theorem get_logs_length_le (n : Int) (hn : 1 ≤ n) (ls : List String) :
    ((get_logs n true true ls).length : Int) ≤ min n 1000 := by
  have hk1 : (1:Int) ≤ min n 1000 := le_min hn (by norm_num)
  have hfil : ∀ (l : List String),
      ((l.map (fun s => pyStrip s)).filter (fun s => s ≠ "")).length ≤ l.length :=
    fun l => Nat.le_trans (List.length_filter_le _ _) (Nat.le_of_eq (List.length_map _ _))
  by_cases hlen : (ls.length : Int) > min n 1000
  · have hgoal : get_logs n true true ls =
        ((pySliceFrom (-(min n 1000)) ls).map (fun s => pyStrip s)).filter
          (fun s => s ≠ "") := by
      simp [get_logs, hlen]
    rw [hgoal]
    have hneg : ¬ (0:Int) ≤ -(min n 1000) := by omega
    have hslice : pySliceFrom (-(min n 1000)) ls =
        ls.drop (ls.length - (min n 1000).toNat) := by
      simp [pySliceFrom, hneg]
    rw [hslice]
    have h1 := hfil (ls.drop (ls.length - (min n 1000).toNat))
    have h2 : (ls.drop (ls.length - (min n 1000).toNat)).length
        = ls.length - (ls.length - (min n 1000).toNat) := List.length_drop _ _
    omega
  · have hgoal : get_logs n true true ls =
        (ls.map (fun s => pyStrip s)).filter (fun s => s ≠ "") := by
      simp [get_logs, hlen]
    rw [hgoal]
    have h1 := hfil ls
    omega

/-- C9 counterexample: the requested line count is not clamped below 1:
asking for `lines = 0` over a one-line log file returns one entry, which
exceeds `min 0 1000 = 0` — in Python `all_lines[-0:]` is the whole file,
so a zero (or negative) request escapes the cap. -/
theorem get_logs_zero_lines_counterexample :
    get_logs 0 true true ["a"] = ["a"] ∧
    min (0 : Int) 1000 = 0 ∧
    ¬ (((get_logs 0 true true ["a"]).length : Int) ≤ min (0 : Int) 1000) :=
  ⟨by decide, by decide, by decide⟩

/-- C9 amended: for every requested line count `n ≥ 1` the number of
returned entries is at most `min n 1000` (the request is clamped at
1000, one entry per nonblank line), and when the log file is absent or
unreadable the result is the empty list, not an error. The bound fails
for `n ≤ 0` (see the counterexample). -/
theorem get_logs_clamped (n : Int) (e r : Bool) (ls : List String)
    (hn : 1 ≤ n) :
    (((get_logs n e r ls).length : Int) ≤ min n 1000) ∧
    get_logs n false r ls = [] ∧
    get_logs n e false ls = [] := by
  have hk1 : (1:Int) ≤ min n 1000 := le_min hn (by norm_num)
  refine ⟨?_, by simp [get_logs], by cases e <;> simp [get_logs]⟩
  cases e with
  | false =>
    have h0 : get_logs n false r ls = [] := by simp [get_logs]
    rw [h0]
    have hmin : (0:Int) ≤ min n 1000 := by linarith
    simpa using hmin
  | true =>
    cases r with
    | false =>
      have h0 : get_logs n true false ls = [] := by simp [get_logs]
      rw [h0]
      have hmin : (0:Int) ≤ min n 1000 := by linarith
      simpa using hmin
    | true => exact get_logs_length_le n hn ls

/-- C9 amended witness: the clamp and the missing-file behavior at a
concrete request of 3 lines over a two-line file. -/
theorem get_logs_clamped_witness :
    (1:Int) ≤ 3 ∧
    ((((get_logs 3 true true ["a", "b"]).length : Int) ≤ min 3 1000) ∧
     get_logs 3 false true ["a", "b"] = [] ∧
     get_logs 3 true false ["a", "b"] = []) :=
  ⟨by norm_num, get_logs_clamped 3 true true ["a", "b"] (by norm_num)⟩

end MonitorAPI

